import Mathlib

/-!
Shallow embedding of the event-management backend
(`src/app.js` event controller, `src/utils/s3Helper.js`) and proofs about
its update / delete / listing / storage operations.

External effects (Mongo sessions, S3, Cloudinary) are modelled explicitly:
the database is a record of lists, the transaction is modelled by returning
the original database on abort and the mutated one on commit, and the
externally visible storage calls are recorded in an ordered trace of
`Action`s.  Fallible external calls are driven by explicit oracle inputs.
-/

namespace EventApi

/-- `process.env.STORAGE_TYPE`: `'s3'` or the default `'cloudinary'`. -/
inductive StorageType where
  | s3
  | cloudinary
deriving DecidableEq, Repr

/-- Event `status` enum: `draft|upcoming|ongoing|ended|cancelled|deleted`. -/
inductive EventStatus where
  | draft
  | upcoming
  | ongoing
  | ended
  | cancelled
  | deleted
deriving DecidableEq, Repr

/-- Participation `status` enum: `pending|approved|rejected|deleted`. -/
inductive PartStatus where
  | pending
  | approved
  | rejected
  | deleted
deriving DecidableEq, Repr

/-- The populated organizer of an event (the fields the controller reads). -/
structure Organizer where
  id : Nat
  firstName : String
  lastName : String
  email : String
deriving DecidableEq, Repr

/-- An Event row.  `image` is the opaque storage key, nullable. -/
structure Event where
  id : Nat
  organizer : Organizer
  title : String
  location : String
  startDate : Int
  endDate : Int
  maxAttendees : Int
  publicity : Bool
  status : EventStatus
  image : Option String
deriving DecidableEq, Repr

/-- A Participation row linking user `user` to event `event`. -/
structure Participation where
  id : Nat
  user : Nat
  event : Nat
  status : PartStatus
deriving DecidableEq, Repr

/-- The free-form `data` payload of a notification. -/
structure NotificationData where
  message : String
deriving DecidableEq, Repr

/-- A Notification row as built by the update fan-out. -/
structure Notification where
  userId : Nat
  type : String
  message : String
  relatedId : Nat
  notificationSender : Nat
  data : NotificationData
  isRead : Bool
deriving DecidableEq, Repr

/-- `settings.eventSettings`. -/
structure EventSettings where
  maxAttendeesPerEvent : Int
deriving DecidableEq, Repr

/-- The singleton Settings document; `eventSettings` may be missing. -/
structure Settings where
  eventSettings : Option EventSettings
deriving DecidableEq, Repr

/-- The database state: events, participations, notifications. -/
structure DB where
  events : List Event
  participations : List Participation
  notifications : List Notification
deriving DecidableEq, Repr

/-- A JSON body field as JavaScript sees it: absent, a number, or a string. -/
inductive JSField where
  | undef
  | num (n : Int)
  | str (s : String)
deriving DecidableEq, Repr

/-- JavaScript truthiness of a body field (`undefined`, `0`, `""` are falsy). -/
def JSField.truthy : JSField → Bool
  | .undef => false
  | .num n => n != 0
  | .str s => s != ""

/-- JavaScript numeric coercion; `none` stands for `NaN`. -/
def JSField.toNum : JSField → Option Int
  | .undef => none
  | .num n => some n
  | .str s => s.toInt?

/-- JavaScript `v > m` after numeric coercion; any comparison with `NaN`
is false. -/
def JSField.gtNum (v : JSField) (m : Int) : Bool :=
  match v.toNum with
  | some n => n > m
  | none => false

/-- JavaScript truthiness of a nullable string (such as an image key). -/
def truthyKey : Option String → Bool
  | none => false
  | some s => s != ""

/-- JavaScript `k || old` for nullable string keys. -/
def jsOrKey (k old : Option String) : Option String :=
  if truthyKey k then k else old

/-- The update request body (`req.body`) merged by the controller:
every field is optional; `maxAttendees` keeps its raw JSON shape because
the capacity check applies JavaScript truthiness and coercion to it. -/
structure Body where
  title : Option String
  location : Option String
  startDate : Option Int
  endDate : Option Int
  maxAttendees : JSField
  publicity : Option Bool
  image : Option String
deriving DecidableEq, Repr

/-- `deleteFromS3` (src/utils/s3Helper.js:46).  `send` is the external
`s3Client.send` call, which may throw (`Except.error`).  The function
returns `false` for a falsy key, catches any error from `send` and
returns `false`, and never throws itself (result is always `.ok`). -/
def deleteFromS3 (send : String → Except String Unit) (key : Option String) :
    Except String Bool :=
  if truthyKey key = false then Except.ok false
  else
    match key with
    | none => Except.ok false
    | some s =>
      match send s with
      | Except.ok _ => Except.ok true
      | Except.error _ => Except.ok false

/-- `getSignedUrlForKey` (src/utils/s3Helper.js:27).  `sign` is the external
`getSignedUrl` call, which may throw.  A falsy key yields `none`
immediately; a signing error is caught and yields `none`; the function
itself never throws. -/
def getSignedUrlForKey (sign : String → Int → Except String String)
    (key : Option String) (expiresIn : Int) : Except String (Option String) :=
  if truthyKey key = false then Except.ok none
  else
    match key with
    | none => Except.ok none
    | some s =>
      match sign s expiresIn with
      | Except.ok url => Except.ok (some url)
      | Except.error _ => Except.ok none

/-- Find an event by id (`Event.findById`). -/
def DB.findEvent (db : DB) (eid : Nat) : Option Event :=
  db.events.find? (fun e => e.id == eid)

/-- Replace the event row(s) with the given id (`Event.findByIdAndUpdate`). -/
def DB.updateEventRow (db : DB) (eid : Nat) (e' : Event) : DB :=
  { db with events := db.events.map (fun e => if e.id == eid then e' else e) }

/-- `Participation.updateMany({event: eid}, {status: deleted})`. -/
def DB.cascadeParticipations (db : DB) (eid : Nat) : DB :=
  { db with
    participations := db.participations.map (fun p =>
      if p.event == eid then { p with status := PartStatus.deleted } else p) }

/-- `Participation.find({event: eid, status: approved})`. -/
def DB.approvedParticipations (db : DB) (eid : Nat) : List Participation :=
  db.participations.filter (fun p => p.event == eid && p.status == PartStatus.approved)

/-- Externally visible actions of one `updateEvent` run, in order:
storage uploads/deletions and the transaction steps. -/
inductive Action where
  | uploadNew (key : String)
  | deleteOldKey (key : String)
  | persistEvent
  | insertNotifications (n : Nat)
  | txCommit
  | txAbort
deriving DecidableEq, Repr

/-- Oracles for the fallible external calls made during `updateEvent`.
`deleteOk` is the success of the best-effort old-media deletion; its value
is never consulted because the controller discards `deleteFromS3`'s
result. -/
structure Oracles where
  uploadOk : Bool
  uploadedKey : String
  deleteOk : Bool
  persistOk : Bool
  notifInsertOk : Bool
deriving DecidableEq, Repr

/-- One `PUT /events/:eventId` request: the target id, the parsed body,
and whether a multipart file accompanies it (`req.file`). -/
structure Request where
  eventId : Nat
  body : Body
  file : Bool
deriving DecidableEq, Repr

/-- The observable outcome of one `updateEvent` run: HTTP status, error
message (empty on success), the database after commit or rollback, the
ordered action trace, the notification rows inserted by the committed
transaction, and the event returned in a 200 response. -/
structure Outcome where
  status : Nat
  message : String
  db : DB
  trace : List Action
  notifsCreated : List Notification
  responseEvent : Option Event
deriving DecidableEq, Repr

/-- The trace contribution of `deleteOldImage` (src/app.js:150): a no-op
for a falsy key, an S3 deletion request only when the backend is S3. -/
def deleteOldImageActions (storageType : StorageType) (imageKey : Option String) :
    List Action :=
  if truthyKey imageKey = false then []
  else if storageType = StorageType.s3 then
    match imageKey with
    | some k => [Action.deleteOldKey k]
    | none => []
  else []

/-- `const updateData = { ...req.body, image: imageKey || existingEvent.image }`
(src/app.js:332): the body with its `image` field overridden by the new
upload key if any, else the existing key. -/
def mergedUpdateData (o : Oracles) (req : Request) (e : Event) : Body :=
  { req.body with
    image := jsOrKey (if req.file then some o.uploadedKey else none) e.image }

/-- How `maxAttendees` is stored when the merged update persists: absent
keeps the old value, a number is stored as is, a numeric string is cast. -/
def appliedMaxAttendees (f : JSField) (old : Int) : Int :=
  match f with
  | JSField.undef => old
  | JSField.num n => n
  | JSField.str s => (s.toInt?).getD old

/-- The event row produced by
`Event.findByIdAndUpdate(eventId, updateData, {new: true, runValidators: true})`
for the merged update data. -/
def applyPatch (e : Event) (u : Body) : Event :=
  { e with
    title := u.title.getD e.title
    location := u.location.getD e.location
    startDate := u.startDate.getD e.startDate
    endDate := u.endDate.getD e.endDate
    maxAttendees := appliedMaxAttendees u.maxAttendees e.maxAttendees
    publicity := u.publicity.getD e.publicity
    image := u.image }

/-- One notification draft of the fan-out (src/app.js:373): addressed to
the participation's user, tagged `eventUpdate`, related to the
participation, sent by the organizer, with a message naming the event and
a data body naming the organizer's contact identity. -/
def mkNotification (updatedEvent : Event) (organizerId : Nat)
    (participation : Participation) : Notification :=
  { userId := participation.user
    type := "eventUpdate"
    message := "Event \"" ++ updatedEvent.title ++ "\" has been updated"
    relatedId := participation.id
    notificationSender := organizerId
    data := { message :=
      "The event \"" ++ updatedEvent.title ++
      "\" has been updated. Please kindly check the new details.\nWe look forward to your participation.\n\nRegards,\n\n" ++
      updatedEvent.organizer.firstName ++ " " ++
      updatedEvent.organizer.lastName ++ ",\n" ++
      updatedEvent.organizer.email }
    isRead := false }

/-- The capacity-policy message of `updateEvent` (src/app.js:346). -/
def updateCapacityMessage (maxAllowed : Int) : String :=
  "System limit exceeded. Current maximum event capacity: " ++ toString maxAllowed

/-- The media actions performed before any database mutation when a file
accompanies the request: the new upload, then — if the event has a truthy
stored key — the old key's best-effort deletion (src/app.js:314). -/
def preTrace (storageType : StorageType) (o : Oracles) (req : Request)
    (e : Event) : List Action :=
  if req.file then
    Action.uploadNew o.uploadedKey ::
      (if truthyKey e.image then deleteOldImageActions storageType e.image
      else [])
  else []

/-- `updateEvent` (src/app.js:301), the event mutation orchestrator.
`detect` is `detectEventChanges` passed as a parameter (its source file,
src/utils/eventHelpers.js, is not part of the sources).  The run starts a
transaction; on any abort the returned database is the unchanged input
(rollback), and on commit it is the mutated one.  Control flow mirrors the
source: load event (404), optional media upload followed immediately by
best-effort deletion of the old key, settings check (500), capacity check
(400), change detection, persist, conditional notification fan-out,
commit. -/
def updateEvent (detect : Event → Body → Bool) (storageType : StorageType)
    (settings : Option Settings) (o : Oracles) (db : DB) (req : Request) :
    Outcome :=
  match db.findEvent req.eventId with
  | none =>
    { status := 404, message := "Event not found", db := db,
      trace := [Action.txAbort], notifsCreated := [], responseEvent := none }
  | some existingEvent =>
    if req.file && !o.uploadOk then
      { status := 400, message := "Failed to update event", db := db,
        trace := [Action.txAbort], notifsCreated := [], responseEvent := none }
    else
      let tr1 : List Action := preTrace storageType o req existingEvent
      let organizerId := existingEvent.organizer.id
      let updateData := mergedUpdateData o req existingEvent
      match settings with
      | none =>
        { status := 500, message := "Event settings not configured", db := db,
          trace := tr1 ++ [Action.txAbort], notifsCreated := [],
          responseEvent := none }
      | some st =>
        match st.eventSettings with
        | none =>
          { status := 500, message := "Event settings not configured", db := db,
            trace := tr1 ++ [Action.txAbort], notifsCreated := [],
            responseEvent := none }
        | some es =>
          let maxAllowed := es.maxAttendeesPerEvent
          if updateData.maxAttendees.truthy && updateData.maxAttendees.gtNum maxAllowed then
            { status := 400, message := updateCapacityMessage maxAllowed,
              db := db, trace := tr1 ++ [Action.txAbort], notifsCreated := [],
              responseEvent := none }
          else
            let changes := detect existingEvent updateData
            if !o.persistOk then
              { status := 400, message := "Failed to update event", db := db,
                trace := tr1 ++ [Action.txAbort], notifsCreated := [],
                responseEvent := none }
            else
              let updatedEvent := applyPatch existingEvent updateData
              let db1 := db.updateEventRow req.eventId updatedEvent
              let tr2 := tr1 ++ [Action.persistEvent]
              if changes then
                let participations := db.approvedParticipations req.eventId
                if participations.length > 0 then
                  if !o.notifInsertOk then
                    { status := 400, message := "Failed to update event",
                      db := db, trace := tr2 ++ [Action.txAbort],
                      notifsCreated := [], responseEvent := none }
                  else
                    let notifications :=
                      participations.map (mkNotification updatedEvent organizerId)
                    { status := 200, message := "",
                      db := { db1 with
                        notifications := db1.notifications ++ notifications },
                      trace := tr2 ++
                        [Action.insertNotifications notifications.length,
                         Action.txCommit],
                      notifsCreated := notifications,
                      responseEvent := some updatedEvent }
                else
                  { status := 200, message := "", db := db1,
                    trace := tr2 ++ [Action.txCommit], notifsCreated := [],
                    responseEvent := some updatedEvent }
              else
                { status := 200, message := "", db := db1,
                  trace := tr2 ++ [Action.txCommit], notifsCreated := [],
                  responseEvent := some updatedEvent }

/-- Outcome of the capacity/`maxAttendees` fragment of `createEvent`
(src/app.js:253): `storedMaxAttendees` is the `maxAttendees` value of the
saved event (`none` when the request fails).  The Event schema file is not
part of the sources, so the other stored fields — which no claim touches —
are not modelled; a truthy non-numeric `maxAttendees` string fails the
schema cast on save. -/
structure CreateOutcome where
  status : Nat
  message : String
  storedMaxAttendees : Option Int
deriving DecidableEq, Repr

/-- The capacity-policy message of `createEvent` (src/app.js:260). -/
def createCapacityMessage (maxAllowed : Int) : String :=
  "Maximum capacity exceeded. System limit: " ++ toString maxAllowed

/-- `createEvent` (src/app.js:236), capacity/`maxAttendees` fragment:
settings check (500), truthiness-guarded capacity check (500), then the
stored value is `req.body.maxAttendees || maxAllowed`. -/
def createEvent (settings : Option Settings) (body : Body) : CreateOutcome :=
  match settings with
  | none =>
    { status := 500, message := "Event settings not configured",
      storedMaxAttendees := none }
  | some st =>
    match st.eventSettings with
    | none =>
      { status := 500, message := "Event settings not configured",
        storedMaxAttendees := none }
    | some es =>
      let maxAllowed := es.maxAttendeesPerEvent
      if body.maxAttendees.truthy && body.maxAttendees.gtNum maxAllowed then
        { status := 500, message := createCapacityMessage maxAllowed,
          storedMaxAttendees := none }
      else
        if body.maxAttendees.truthy then
          match body.maxAttendees.toNum with
          | some n =>
            { status := 201, message := "", storedMaxAttendees := some n }
          | none =>
            { status := 400, message := "Failed to create event",
              storedMaxAttendees := none }
        else
          { status := 201, message := "", storedMaxAttendees := some maxAllowed }

/-- Outcome of `deleteEvent`: HTTP status and the database afterwards.
The best-effort media deletion and the activity log are external
side effects that do not touch the database rows. -/
structure DeleteOutcome where
  status : Nat
  message : String
  db : DB
deriving DecidableEq, Repr

/-- `deleteEvent` (src/app.js:421): set the event's status to `deleted`
(`findByIdAndUpdate`, the row persists), cascade every participation of
the event to status `deleted` (`updateMany`). -/
def deleteEvent (db : DB) (eid : Nat) : DeleteOutcome :=
  match db.findEvent eid with
  | none => { status := 404, message := "Event not found", db := db }
  | some e =>
    let db1 := db.updateEventRow eid { e with status := EventStatus.deleted }
    let db2 := db1.cascadeParticipations eid
    { status := 200,
      message := "Event and related participations soft deleted successfully",
      db := db2 }

/-- The main listing of `getAllEvent` (src/app.js:174): the default filter
excludes `deleted`; the `public` variant replaces it with
`publicity && status not in [ended, cancelled, ongoing, deleted]`;
an `organizerId` query narrows to that organizer. -/
def getAllEvent (db : DB) (isPublic : Bool) (organizerId : Option Nat) :
    List Event :=
  db.events.filter (fun e =>
    (if isPublic then
      e.publicity &&
        !(e.status == EventStatus.ended || e.status == EventStatus.cancelled ||
          e.status == EventStatus.ongoing || e.status == EventStatus.deleted)
    else e.status != EventStatus.deleted) &&
    (match organizerId with
    | some oid => e.organizer.id == oid
    | none => true))

/-- The `participantId` branch of `getAllEvent` (src/app.js:188): events
whose id occurs among the user's approved participations. -/
def joinedEvents (db : DB) (participantId : Nat) : List Event :=
  let participantEventIds :=
    (db.participations.filter (fun p =>
      p.user == participantId && p.status == PartStatus.approved)).map
      (fun p => p.event)
  db.events.filter (fun e => participantEventIds.contains e.id)

/-- Modelled from the spec: `detectEventChanges`
(src/utils/eventHelpers.js, a file not included in the sources) — a pure
comparison of the existing snapshot against the proposed merged update
over the participant-relevant fields (title, schedule, location), true
iff any supplied field differs from the stored one after normalization. -/
def detectEventChanges (e : Event) (u : Body) : Bool :=
  (match u.title with | some t => t != e.title | none => false) ||
  (match u.startDate with | some d => d != e.startDate | none => false) ||
  (match u.endDate with | some d => d != e.endDate | none => false) ||
  (match u.location with | some l => l != e.location | none => false)

/-! ## Shared lemmas -/

/-- A member of a prefix whose elements all satisfy `p` survives `takeWhile p`
on the appended list. -/
theorem mem_takeWhile_append {α : Type} {p : α → Bool} {l₁ l₂ : List α} {a : α}
    (h₁ : ∀ x ∈ l₁, p x = true) (ha : a ∈ l₁) :
    a ∈ (l₁ ++ l₂).takeWhile p := by
  induction l₁ with
  | nil => exact absurd ha (List.not_mem_nil a)
  | cons b t ih =>
    rw [List.cons_append, List.takeWhile_cons, h₁ b (List.mem_cons_self b t)]
    rcases List.mem_cons.mp ha with h | h
    · exact h ▸ List.mem_cons_self b _
    · exact List.mem_cons_of_mem b
        (ih (fun x hx => h₁ x (List.mem_cons_of_mem b hx)) h)

/-- `mergedUpdateData` leaves the `maxAttendees` body field untouched. -/
theorem mergedUpdateData_maxAttendees (o : Oracles) (req : Request) (e : Event) :
    (mergedUpdateData o req e).maxAttendees = req.body.maxAttendees := rfl

/-- After replacing the row a `find?` by id located, the same `find?`
locates the replacement (which keeps the id). -/
theorem find?_update_row (l : List Event) (eid : Nat) (e e' : Event)
    (hl : l.find? (fun x => x.id == eid) = some e) (hid : e'.id = e.id) :
    (l.map (fun x => if x.id == eid then e' else x)).find?
      (fun x => x.id == eid) = some e' := by
  induction l with
  | nil => simp at hl
  | cons a t ih =>
    simp only [List.map_cons]
    by_cases h : (a.id == eid) = true
    · rw [List.find?_cons_of_pos (p := fun (x : Event) => x.id == eid) _ h] at hl
      injection hl with hae
      rw [if_pos h]
      apply List.find?_cons_of_pos (p := fun (x : Event) => x.id == eid)
      show (e'.id == eid) = true
      rw [hid, ← hae]
      exact h
    · rw [List.find?_cons_of_neg (p := fun (x : Event) => x.id == eid) _
        (by simpa using h)] at hl
      rw [if_neg h]
      rw [List.find?_cons_of_neg (p := fun (x : Event) => x.id == eid) _
        (by simpa using h)]
      exact ih hl

/-! ## Concrete fixtures for counterexamples and witnesses -/

/-- A fixture organizer. -/
def orgA : Organizer :=
  { id := 7
    firstName := "Org"
    lastName := "Anizer"
    email := "org@example.com" }

/-- A fixture event with an existing S3 media key. -/
def evA : Event :=
  { id := 1
    organizer := orgA
    title := "Old title"
    location := "Hanoi"
    startDate := 100
    endDate := 200
    maxAttendees := 50
    publicity := true
    status := EventStatus.upcoming
    image := some "uploads/oldkey" }

/-- An approved participation of user 2 on event 1. -/
def partA : Participation :=
  { id := 11
    user := 2
    event := 1
    status := PartStatus.approved }

/-- Second approved participation on event 1. -/
def partB : Participation :=
  { id := 12
    user := 3
    event := 1
    status := PartStatus.approved }

/-- A pending participation on event 1, never a notification target. -/
def partPending : Participation :=
  { id := 13
    user := 4
    event := 1
    status := PartStatus.pending }

/-- Fixture database: one event, three participations, no notifications. -/
def dbA : DB :=
  { events := [evA]
    participations := [partA, partB, partPending]
    notifications := [] }

/-- All external calls succeed; the upload yields a fresh key. -/
def oraclesOk : Oracles :=
  { uploadOk := true
    uploadedKey := "uploads/newkey"
    deleteOk := true
    persistOk := true
    notifInsertOk := true }

/-- Settings with ceiling 100. -/
def settingsA : Settings :=
  { eventSettings := some { maxAttendeesPerEvent := 100 } }

/-- A body carrying no field at all. -/
def emptyBody : Body :=
  { title := none
    location := none
    startDate := none
    endDate := none
    maxAttendees := JSField.undef
    publicity := none
    image := none }

/-- A body changing only the title. -/
def titleBody : Body := { emptyBody with title := some "New title" }

/-! ## Claims about the storage adapter -/

/-- C7: `deleteFromS3` never throws (the result is always `.ok`), returns
`false` for a falsy key — in particular for an absent key — and returns
`false` whenever the underlying `s3Client.send` call fails. -/
theorem c7_delete_never_throws_false_on_failure
    (send : String → Except String Unit) (key : Option String) :
    (∃ b : Bool, deleteFromS3 send key = Except.ok b) ∧
    (deleteFromS3 send none = Except.ok false) ∧
    (truthyKey key = false → deleteFromS3 send key = Except.ok false) ∧
    (∀ s err, key = some s → send s = Except.error err →
      deleteFromS3 send key = Except.ok false) := by
  refine ⟨?_, rfl, ?_, ?_⟩
  · unfold deleteFromS3
    by_cases h : truthyKey key = false
    · exact ⟨false, by rw [if_pos h]⟩
    · rw [if_neg h]
      cases key with
      | none => exact ⟨false, rfl⟩
      | some s =>
        cases hs : send s with
        | ok u => exact ⟨true, by simp only [hs]⟩
        | error e => exact ⟨false, by simp only [hs]⟩
  · intro h
    unfold deleteFromS3
    rw [if_pos h]
  · intro s err hk hs
    subst hk
    unfold deleteFromS3
    by_cases h : truthyKey (some s) = false
    · rw [if_pos h]
    · rw [if_neg h]
      simp only [hs]

/-- C7 witness: a failing backend call and an absent key both yield
`.ok false`. -/
theorem c7_witness :
    deleteFromS3 (fun _ => Except.error "boom") (some "uploads/k") =
      Except.ok false ∧
    deleteFromS3 (fun _ => Except.error "boom") none = Except.ok false := by
  refine ⟨?_, ?_⟩
  · exact (c7_delete_never_throws_false_on_failure
      (fun _ => Except.error "boom") (some "uploads/k")).2.2.2
      "uploads/k" "boom" rfl rfl
  · exact (c7_delete_never_throws_false_on_failure
      (fun _ => Except.error "boom") none).2.1

/-- C8: `getSignedUrlForKey` never throws; it yields `none` for a falsy
key or when the external signing call fails, and yields the signed URL
otherwise. -/
theorem c8_sign_null_on_falsy_or_failure
    (sign : String → Int → Except String String) (key : Option String)
    (ttl : Int) :
    (∃ r, getSignedUrlForKey sign key ttl = Except.ok r) ∧
    (truthyKey key = false → getSignedUrlForKey sign key ttl = Except.ok none) ∧
    (∀ s err, key = some s → sign s ttl = Except.error err →
      getSignedUrlForKey sign key ttl = Except.ok none) ∧
    (∀ s u, key = some s → s ≠ "" → sign s ttl = Except.ok u →
      getSignedUrlForKey sign key ttl = Except.ok (some u)) := by
  refine ⟨?_, ?_, ?_, ?_⟩
  · unfold getSignedUrlForKey
    by_cases h : truthyKey key = false
    · exact ⟨none, by rw [if_pos h]⟩
    · rw [if_neg h]
      cases key with
      | none => exact ⟨none, rfl⟩
      | some s =>
        cases hs : sign s ttl with
        | ok u => exact ⟨some u, by simp only [hs]⟩
        | error e => exact ⟨none, by simp only [hs]⟩
  · intro h
    unfold getSignedUrlForKey
    rw [if_pos h]
  · intro s err hk hs
    subst hk
    unfold getSignedUrlForKey
    by_cases h : truthyKey (some s) = false
    · rw [if_pos h]
    · rw [if_neg h]
      simp only [hs]
  · intro s u hk hs hsign
    subst hk
    unfold getSignedUrlForKey
    have h : truthyKey (some s) = true := by
      simp [truthyKey, hs]
    rw [if_neg (by simp [h])]
    simp only [hsign]

/-- C8 witness: a failing signer yields `.ok none`, a succeeding signer
yields the URL, and an absent key yields `.ok none`. -/
theorem c8_witness :
    getSignedUrlForKey (fun _ _ => Except.error "boom") (some "uploads/k") 3600 =
      Except.ok none ∧
    getSignedUrlForKey (fun _ _ => Except.ok "https://signed") (some "uploads/k")
      3600 = Except.ok (some "https://signed") ∧
    getSignedUrlForKey (fun _ _ => Except.ok "https://signed") none 3600 =
      Except.ok none := by
  refine ⟨?_, ?_, ?_⟩
  · exact (c8_sign_null_on_falsy_or_failure (fun _ _ => Except.error "boom")
      (some "uploads/k") 3600).2.2.1 "uploads/k" "boom" rfl rfl
  · exact (c8_sign_null_on_falsy_or_failure (fun _ _ => Except.ok "https://signed")
      (some "uploads/k") 3600).2.2.2 "uploads/k" "https://signed" rfl
      (by decide) rfl
  · exact (c8_sign_null_on_falsy_or_failure (fun _ _ => Except.ok "https://signed")
      none 3600).2.1 rfl

/-! ## Branch lemmas for the orchestrator -/

/-- The multipart-upload guard is false whenever a present file implies a
successful upload. -/
theorem upload_guard_false {o : Oracles} {req : Request}
    (hup : req.file = true → o.uploadOk = true) :
    (req.file && !o.uploadOk) = false := by
  cases hf : req.file with
  | false => rfl
  | true => rw [hup hf]; rfl

/-- Every action emitted by `deleteOldImageActions` is a `deleteOldKey`. -/
theorem mem_deleteOldImageActions {a : Action} {storageType : StorageType}
    {img : Option String} (h : a ∈ deleteOldImageActions storageType img) :
    ∃ k, a = Action.deleteOldKey k := by
  unfold deleteOldImageActions at h
  by_cases h1 : truthyKey img = false
  · rw [if_pos h1] at h; cases h
  · rw [if_neg h1] at h
    by_cases h2 : storageType = StorageType.s3
    · rw [if_pos h2] at h
      cases img with
      | none => cases h
      | some k =>
        have := List.mem_singleton.mp h
        exact ⟨k, this⟩
    · rw [if_neg h2] at h; cases h

/-- No element of the pre-transaction media trace is a commit. -/
theorem preTrace_no_commit (storageType : StorageType) (o : Oracles)
    (req : Request) (e : Event) :
    ∀ x ∈ preTrace storageType o req e, (x != Action.txCommit) = true := by
  intro x hx
  unfold preTrace at hx
  cases hf : req.file with
  | false => rw [hf, if_neg (by simp)] at hx; cases hx
  | true =>
    rw [hf, if_pos rfl] at hx
    rcases List.mem_cons.mp hx with h | h
    · subst h; rfl
    · by_cases ht : truthyKey e.image = true
      · rw [if_pos ht] at h
        rcases mem_deleteOldImageActions h with ⟨k, hk⟩
        subst hk; rfl
      · rw [if_neg ht] at h; cases h

/-- Tests whether a trace performs an old-media deletion strictly before
any transaction commit. -/
def deletesOldBeforeCommit (tr : List Action) : Bool :=
  (tr.takeWhile (fun a => a != Action.txCommit)).any (fun a =>
    match a with
    | Action.deleteOldKey _ => true
    | _ => false)

/-! ## C1 -/

/-- C1 counterexample: at a concrete update request that carries a new
media payload (S3 backend, all external calls succeeding), the old media
key is deleted strictly before the commit step — the transaction does
commit, yet the deletion of the previously stored key happens earlier, so
the claimed ordering (no deletion before commit) is false on the code. -/
theorem c1_counterexample_delete_before_commit :
    deletesOldBeforeCommit
      (updateEvent detectEventChanges StorageType.s3 (some settingsA) oraclesOk
        dbA { eventId := 1, body := titleBody, file := true }).trace = true ∧
    Action.txCommit ∈
      (updateEvent detectEventChanges StorageType.s3 (some settingsA) oraclesOk
        dbA { eventId := 1, body := titleBody, file := true }).trace := by
  constructor
  · decide
  · decide

/-- C1 (amended): for every update request with a new media payload whose
upload succeeds, against an event that has a stored media key (S3
backend), the old key's deletion appears in the trace before any commit;
and the outcome never depends on the success of that best-effort deletion
(the controller discards `deleteFromS3`'s result). -/
theorem c1_old_media_deleted_before_commit
    (detect : Event → Body → Bool) (settings : Option Settings) (o : Oracles)
    (db : DB) (req : Request) (e : Event) (k : String)
    (he : db.findEvent req.eventId = some e)
    (hf : req.file = true) (hu : o.uploadOk = true)
    (him : e.image = some k) (hk : k ≠ "") :
    Action.deleteOldKey k ∈
      ((updateEvent detect StorageType.s3 settings o db req).trace.takeWhile
        (fun a => a != Action.txCommit)) ∧
    (∀ d : Bool,
      updateEvent detect StorageType.s3 settings
        { o with deleteOk := d } db req =
      updateEvent detect StorageType.s3 settings o db req) := by
  constructor
  · have hpre : preTrace StorageType.s3 o req e =
        [Action.uploadNew o.uploadedKey, Action.deleteOldKey k] := by
      unfold preTrace
      rw [if_pos hf, him]
      have ht : truthyKey (some k) = true := by
        simp [truthyKey, hk]
      rw [if_pos ht]
      unfold deleteOldImageActions
      rw [if_neg (by simp [ht]), if_pos rfl]
    have hguard : (req.file && !o.uploadOk) = false := by
      rw [hf, hu]; rfl
    have hmem : Action.deleteOldKey k ∈
        [Action.uploadNew o.uploadedKey, Action.deleteOldKey k] := by
      simp
    have hok : ∀ x ∈ [Action.uploadNew o.uploadedKey, Action.deleteOldKey k],
        (x != Action.txCommit) = true := by
      intro x hx
      rcases List.mem_cons.mp hx with h | h
      · subst h; rfl
      · rcases List.mem_cons.mp h with h2 | h2
        · subst h2; rfl
        · cases h2
    unfold updateEvent
    rw [he, hguard]
    simp only [Bool.false_eq_true, if_false, hpre]
    rcases settings with _ | ⟨_ | es⟩ <;> dsimp only
    · exact mem_takeWhile_append hok hmem
    · exact mem_takeWhile_append hok hmem
    · by_cases hcap : ((mergedUpdateData o req e).maxAttendees.truthy &&
          (mergedUpdateData o req e).maxAttendees.gtNum
            es.maxAttendeesPerEvent) = true
      · rw [if_pos hcap]
        exact mem_takeWhile_append hok hmem
      · rw [if_neg hcap]
        by_cases hp : (!o.persistOk) = true
        · rw [if_pos hp]
          exact mem_takeWhile_append hok hmem
        · rw [if_neg hp]
          by_cases hch : detect e (mergedUpdateData o req e) = true
          · rw [if_pos hch]
            by_cases hl : (db.approvedParticipations req.eventId).length > 0
            · rw [if_pos hl]
              by_cases hni : (!o.notifInsertOk) = true
              · rw [if_pos hni]
                rw [List.append_assoc]
                exact mem_takeWhile_append hok hmem
              · rw [if_neg hni]
                rw [List.append_assoc]
                exact mem_takeWhile_append hok hmem
            · rw [if_neg hl]
              rw [List.append_assoc]
              exact mem_takeWhile_append hok hmem
          · rw [if_neg hch]
            rw [List.append_assoc]
            exact mem_takeWhile_append hok hmem
  · intro d
    cases o with
    | mk u uk dd p n => rfl

/-- C1 witness for the amended statement: the concrete media-replacing
update request of the counterexample satisfies its hypotheses. -/
theorem c1_witness :
    Action.deleteOldKey "uploads/oldkey" ∈
      ((updateEvent detectEventChanges StorageType.s3 (some settingsA) oraclesOk
        dbA { eventId := 1, body := titleBody, file := true }).trace.takeWhile
        (fun a => a != Action.txCommit)) ∧
    (∀ d : Bool,
      updateEvent detectEventChanges StorageType.s3 (some settingsA)
        { oraclesOk with deleteOk := d } dbA
        { eventId := 1, body := titleBody, file := true } =
      updateEvent detectEventChanges StorageType.s3 (some settingsA) oraclesOk
        dbA { eventId := 1, body := titleBody, file := true }) :=
  c1_old_media_deleted_before_commit detectEventChanges (some settingsA)
    oraclesOk dbA { eventId := 1, body := titleBody, file := true } evA
    "uploads/oldkey" rfl rfl rfl rfl (by decide)

/-! ## C2 -/

/-- A truthy, numerically greater `maxAttendees` follows from a numeric
value exceeding a ceiling of at least 1. -/
theorem capacity_guard_true {f : JSField} {m v : Int}
    (hnum : f.toNum = some v) (hceil : 1 ≤ m) (hv : m < v) :
    (f.truthy && f.gtNum m) = true := by
  have htruthy : f.truthy = true := by
    cases f with
    | undef => simp [JSField.toNum] at hnum
    | num n =>
      simp only [JSField.toNum, Option.some.injEq] at hnum
      subst hnum
      have : n ≠ 0 := by omega
      simp [JSField.truthy, this]
    | str s =>
      simp only [JSField.toNum] at hnum
      have hs : s ≠ "" := by
        intro h
        subst h
        have hempty : ("" : String).toInt? = none := by decide
        rw [hempty] at hnum
        cases hnum
      simp [JSField.truthy, hs]
  have hgt : f.gtNum m = true := by
    unfold JSField.gtNum
    rw [hnum]
    simpa using hv
  rw [htruthy, hgt]
  rfl

/-- C2: for every update request whose proposed `maxAttendees` has a
numeric value exceeding the configured ceiling (a positive ceiling, with
the flow reaching the validation step), the update fails with a 400
response whose message contains the ceiling value, the transaction aborts
(no commit in the trace), and the database — in particular the event row
with its media key — is exactly its pre-request state. -/
theorem c2_capacity_exceeded_aborts_unchanged
    (detect : Event → Body → Bool) (storageType : StorageType)
    (settings : Option Settings) (es : EventSettings) (o : Oracles) (db : DB)
    (req : Request) (e : Event) (v : Int)
    (he : db.findEvent req.eventId = some e)
    (hup : req.file = true → o.uploadOk = true)
    (hst : settings = some { eventSettings := some es })
    (hceil : 1 ≤ es.maxAttendeesPerEvent)
    (hnum : req.body.maxAttendees.toNum = some v)
    (hv : es.maxAttendeesPerEvent < v) :
    (updateEvent detect storageType settings o db req).status = 400 ∧
    (updateEvent detect storageType settings o db req).message =
      updateCapacityMessage es.maxAttendeesPerEvent ∧
    (∃ pre, (updateEvent detect storageType settings o db req).message =
      pre ++ toString es.maxAttendeesPerEvent) ∧
    (updateEvent detect storageType settings o db req).db = db ∧
    Action.txCommit ∉ (updateEvent detect storageType settings o db req).trace := by
  subst hst
  have hcap : ((mergedUpdateData o req e).maxAttendees.truthy &&
      (mergedUpdateData o req e).maxAttendees.gtNum
        es.maxAttendeesPerEvent) = true := by
    rw [mergedUpdateData_maxAttendees]
    exact capacity_guard_true hnum hceil hv
  have hout : updateEvent detect storageType
      (some { eventSettings := some es }) o db req =
      { status := 400, message := updateCapacityMessage es.maxAttendeesPerEvent,
        db := db,
        trace := preTrace storageType o req e ++ [Action.txAbort],
        notifsCreated := [], responseEvent := none } := by
    unfold updateEvent
    rw [he, upload_guard_false hup]
    simp only [Bool.false_eq_true, if_false]
    rw [if_pos hcap]
  rw [hout]
  refine ⟨rfl, rfl, ⟨"System limit exceeded. Current maximum event capacity: ",
    rfl⟩, rfl, ?_⟩
  intro hmem
  rcases List.mem_append.mp hmem with h | h
  · have := preTrace_no_commit storageType o req e Action.txCommit h
    simp at this
  · rcases List.mem_singleton.mp h with h2
    cases h2

/-- A fixture update request proposing `maxAttendees = 150`, no file. -/
def overCapReq : Request :=
  { eventId := 1
    body := { emptyBody with maxAttendees := JSField.num 150 }
    file := false }

/-- C2 witness: requesting `maxAttendees = 150` against ceiling 100 yields
the 400 capacity response, an untouched database, and no commit. -/
theorem c2_witness :
    (updateEvent detectEventChanges StorageType.s3 (some settingsA) oraclesOk
      dbA overCapReq).status = 400 ∧
    (updateEvent detectEventChanges StorageType.s3 (some settingsA) oraclesOk
      dbA overCapReq).message = updateCapacityMessage 100 ∧
    (∃ pre, (updateEvent detectEventChanges StorageType.s3 (some settingsA)
      oraclesOk dbA overCapReq).message = pre ++ toString (100 : Int)) ∧
    (updateEvent detectEventChanges StorageType.s3 (some settingsA) oraclesOk
      dbA overCapReq).db = dbA ∧
    Action.txCommit ∉
      (updateEvent detectEventChanges StorageType.s3 (some settingsA) oraclesOk
        dbA overCapReq).trace :=
  c2_capacity_exceeded_aborts_unchanged detectEventChanges StorageType.s3
    (some settingsA) { maxAttendeesPerEvent := 100 } oraclesOk dbA
    overCapReq evA 150 rfl (fun h => by cases h) rfl (by decide) rfl
    (by decide)

/-! ## Behavior past the persist step -/

/-- The outcome of an update run that commits without notification
fan-out: event row replaced, no notifications. -/
def commitPlainOutcome (storageType : StorageType) (o : Oracles)
    (req : Request) (db : DB) (e : Event) : Outcome :=
  { status := 200
    message := ""
    db := db.updateEventRow req.eventId (applyPatch e (mergedUpdateData o req e))
    trace := preTrace storageType o req e ++ [Action.persistEvent] ++
      [Action.txCommit]
    notifsCreated := []
    responseEvent := some (applyPatch e (mergedUpdateData o req e)) }

/-- The outcome of an update run whose notification batch insert throws:
the transaction rolls back, so the database is the untouched input. -/
def insertFailOutcome (storageType : StorageType) (o : Oracles)
    (req : Request) (db : DB) (e : Event) : Outcome :=
  { status := 400
    message := "Failed to update event"
    db := db
    trace := preTrace storageType o req e ++ [Action.persistEvent] ++
      [Action.txAbort]
    notifsCreated := []
    responseEvent := none }

/-- The notification batch built by the fan-out: one record per approved
participation of the event. -/
def fanoutNotifications (o : Oracles) (req : Request) (db : DB) (e : Event) :
    List Notification :=
  (db.approvedParticipations req.eventId).map
    (mkNotification (applyPatch e (mergedUpdateData o req e)) e.organizer.id)

/-- The outcome of an update run that commits together with its
notification fan-out. -/
def fanoutOutcome (storageType : StorageType) (o : Oracles) (req : Request)
    (db : DB) (e : Event) : Outcome :=
  { status := 200
    message := ""
    db := { db.updateEventRow req.eventId
        (applyPatch e (mergedUpdateData o req e)) with
      notifications := db.notifications ++ fanoutNotifications o req db e }
    trace := preTrace storageType o req e ++ [Action.persistEvent] ++
      [Action.insertNotifications (fanoutNotifications o req db e).length,
       Action.txCommit]
    notifsCreated := fanoutNotifications o req db e
    responseEvent := some (applyPatch e (mergedUpdateData o req e)) }

/-- Once an update run passes loading, media upload, settings resolution,
the capacity check and the persist step, its outcome is one of: commit
without fan-out (no material change, or no approved participation),
rollback on notification-insert failure, or commit with one notification
per approved participation. -/
theorem updateEvent_post_persist
    (detect : Event → Body → Bool) (storageType : StorageType)
    (es : EventSettings) (o : Oracles) (db : DB) (req : Request) (e : Event)
    (he : db.findEvent req.eventId = some e)
    (hup : req.file = true → o.uploadOk = true)
    (hcap : ((mergedUpdateData o req e).maxAttendees.truthy &&
      (mergedUpdateData o req e).maxAttendees.gtNum
        es.maxAttendeesPerEvent) = false)
    (hpersist : o.persistOk = true) :
    (detect e (mergedUpdateData o req e) = false →
      updateEvent detect storageType (some { eventSettings := some es }) o db
        req = commitPlainOutcome storageType o req db e) ∧
    (db.approvedParticipations req.eventId = [] →
      updateEvent detect storageType (some { eventSettings := some es }) o db
        req = commitPlainOutcome storageType o req db e) ∧
    (detect e (mergedUpdateData o req e) = true →
      db.approvedParticipations req.eventId ≠ [] →
      o.notifInsertOk = false →
      updateEvent detect storageType (some { eventSettings := some es }) o db
        req = insertFailOutcome storageType o req db e) ∧
    (detect e (mergedUpdateData o req e) = true →
      db.approvedParticipations req.eventId ≠ [] →
      o.notifInsertOk = true →
      updateEvent detect storageType (some { eventSettings := some es }) o db
        req = fanoutOutcome storageType o req db e) := by
  refine ⟨?_, ?_, ?_, ?_⟩
  · intro hch
    unfold updateEvent
    rw [he, upload_guard_false hup]
    simp only [Bool.false_eq_true, if_false]
    rw [if_neg (by rw [hcap]; exact Bool.false_ne_true)]
    rw [hpersist]
    simp only [Bool.not_true, Bool.false_eq_true, if_false]
    rw [if_neg (by rw [hch]; exact Bool.false_ne_true)]
    rfl
  · intro hparts
    unfold updateEvent
    rw [he, upload_guard_false hup]
    simp only [Bool.false_eq_true, if_false]
    rw [if_neg (by rw [hcap]; exact Bool.false_ne_true)]
    rw [hpersist]
    simp only [Bool.not_true, Bool.false_eq_true, if_false]
    by_cases hch : detect e (mergedUpdateData o req e) = true
    · rw [if_pos hch, hparts]
      rw [if_neg (by simp)]
      rfl
    · rw [if_neg hch]
      rfl
  · intro hch hparts hni
    unfold updateEvent
    rw [he, upload_guard_false hup]
    simp only [Bool.false_eq_true, if_false]
    rw [if_neg (by rw [hcap]; exact Bool.false_ne_true)]
    rw [hpersist]
    simp only [Bool.not_true, Bool.false_eq_true, if_false]
    rw [if_pos hch, if_pos (List.length_pos.mpr hparts)]
    rw [if_pos (by rw [hni]; rfl)]
    rfl
  · intro hch hparts hni
    unfold updateEvent
    rw [he, upload_guard_false hup]
    simp only [Bool.false_eq_true, if_false]
    rw [if_neg (by rw [hcap]; exact Bool.false_ne_true)]
    rw [hpersist]
    simp only [Bool.not_true, Bool.false_eq_true, if_false]
    rw [if_pos hch, if_pos (List.length_pos.mpr hparts)]
    rw [if_neg (by rw [hni]; simp)]
    rfl

/-- If a run creates any notifications, then the event was found, the
change detector reported a change on it, an approved participation
existed, and the batch insert succeeded. -/
theorem notifsCreated_nonempty_implies (detect : Event → Body → Bool)
    (storageType : StorageType) (settings : Option Settings) (o : Oracles)
    (db : DB) (req : Request)
    (h : (updateEvent detect storageType settings o db req).notifsCreated ≠ []) :
    ∃ e, db.findEvent req.eventId = some e ∧
      detect e (mergedUpdateData o req e) = true ∧
      db.approvedParticipations req.eventId ≠ [] ∧
      o.notifInsertOk = true := by
  unfold updateEvent at h
  cases hfind : db.findEvent req.eventId with
  | none => rw [hfind] at h; exact absurd rfl h
  | some e =>
    rw [hfind] at h
    dsimp only at h
    refine ⟨e, rfl, ?_⟩
    by_cases hg : (req.file && !o.uploadOk) = true
    · rw [if_pos hg] at h; exact absurd rfl h
    · rw [if_neg hg] at h
      rcases settings with _ | ⟨_ | es⟩
      · exact absurd rfl h
      · exact absurd rfl h
      · dsimp only at h
        by_cases hcap : ((mergedUpdateData o req e).maxAttendees.truthy &&
            (mergedUpdateData o req e).maxAttendees.gtNum
              es.maxAttendeesPerEvent) = true
        · rw [if_pos hcap] at h; exact absurd rfl h
        · rw [if_neg hcap] at h
          by_cases hp : (!o.persistOk) = true
          · rw [if_pos hp] at h; exact absurd rfl h
          · rw [if_neg hp] at h
            by_cases hch : detect e (mergedUpdateData o req e) = true
            · rw [if_pos hch] at h
              by_cases hl : (db.approvedParticipations req.eventId).length > 0
              · rw [if_pos hl] at h
                by_cases hni : (!o.notifInsertOk) = true
                · rw [if_pos hni] at h; exact absurd rfl h
                · refine ⟨hch, ?_, ?_⟩
                  · intro hnil
                    rw [hnil] at hl
                    simp at hl
                  · cases hno : o.notifInsertOk with
                    | true => rfl
                    | false =>
                      exact absurd (by rw [hno]; rfl) hni
              · rw [if_neg hl] at h; exact absurd rfl h
            · rw [if_neg hch] at h; exact absurd rfl h

/-! ## C3 -/

/-- C3: notification records are created by an event update iff the change
detector reports a material change and at least one approved participation
exists.  Unconditionally, a run with no approved participation creates no
notification, and a run whose detector reports no change creates none;
and once the flow reaches the fan-out decision (event found, upload and
persist succeed, settings present, capacity check passes, insert succeeds)
the created batch is nonempty exactly when both conditions hold. -/
theorem c3_notification_gate_iff (detect : Event → Body → Bool)
    (storageType : StorageType) (settings : Option Settings)
    (es : EventSettings) (o : Oracles) (db : DB) (req : Request) (e : Event) :
    (db.approvedParticipations req.eventId = [] →
      (updateEvent detect storageType settings o db req).notifsCreated = []) ∧
    (db.findEvent req.eventId = some e →
      detect e (mergedUpdateData o req e) = false →
      (updateEvent detect storageType settings o db req).notifsCreated = []) ∧
    (db.findEvent req.eventId = some e →
      (req.file = true → o.uploadOk = true) →
      settings = some { eventSettings := some es } →
      ((mergedUpdateData o req e).maxAttendees.truthy &&
        (mergedUpdateData o req e).maxAttendees.gtNum
          es.maxAttendeesPerEvent) = false →
      o.persistOk = true → o.notifInsertOk = true →
      ((updateEvent detect storageType settings o db req).notifsCreated ≠ [] ↔
        (detect e (mergedUpdateData o req e) = true ∧
          db.approvedParticipations req.eventId ≠ []))) := by
  refine ⟨?_, ?_, ?_⟩
  · intro hparts
    by_contra h
    rcases notifsCreated_nonempty_implies detect storageType settings o db req h
      with ⟨e', _, _, hne, _⟩
    exact hne hparts
  · intro he hch
    by_contra h
    rcases notifsCreated_nonempty_implies detect storageType settings o db req h
      with ⟨e', he', hch', _, _⟩
    rw [he] at he'
    injection he' with hee
    rw [← hee] at hch'
    rw [hch] at hch'
    cases hch'
  · intro he hup hst hcap hpersist hni
    subst hst
    constructor
    · intro h
      rcases notifsCreated_nonempty_implies detect storageType _ o db req h
        with ⟨e', he', hch', hne, _⟩
      rw [he] at he'
      injection he' with hee
      subst hee
      exact ⟨hch', hne⟩
    · rintro ⟨hch, hparts⟩
      have h := (updateEvent_post_persist detect storageType es o db req e he
        hup hcap hpersist).2.2.2 hch hparts hni
      rw [h]
      intro hnil
      have : db.approvedParticipations req.eventId = [] := by
        have := hnil
        unfold fanoutOutcome fanoutNotifications at this
        simpa using this
      exact hparts this

/-- A fixture update request changing only the title, no file. -/
def titleReq : Request :=
  { eventId := 1
    body := titleBody
    file := false }

/-- C3 witness: on the fixture database (two approved participations) a
title-only change creates a nonempty notification batch, and a database
with no approved participation yields an empty one. -/
theorem c3_witness :
    ((updateEvent detectEventChanges StorageType.s3 (some settingsA) oraclesOk
      dbA titleReq).notifsCreated ≠ [] ↔
      (detectEventChanges evA (mergedUpdateData oraclesOk titleReq evA) = true ∧
        dbA.approvedParticipations titleReq.eventId ≠ [])) ∧
    (updateEvent detectEventChanges StorageType.s3 (some settingsA) oraclesOk
      { dbA with participations := [partPending] } titleReq).notifsCreated =
      [] := by
  constructor
  · exact (c3_notification_gate_iff detectEventChanges StorageType.s3
      (some settingsA) { maxAttendeesPerEvent := 100 } oraclesOk dbA titleReq
      evA).2.2 rfl (fun h => by cases h) rfl (by decide) rfl rfl
  · exact (c3_notification_gate_iff detectEventChanges StorageType.s3
      (some settingsA) { maxAttendeesPerEvent := 100 } oraclesOk
      { dbA with participations := [partPending] } titleReq evA).1 (by decide)

/-! ## C4 -/

/-- C4: if the notification batch insert fails during an otherwise valid
update (event found, upload and persist succeed, settings present,
capacity check passes, a change was detected and approved participations
exist), the whole transaction rolls back: 400 response, the database —
event row included — is exactly its pre-request state, no notification is
created, and no commit appears in the trace. -/
theorem c4_notification_insert_failure_rolls_back
    (detect : Event → Body → Bool) (storageType : StorageType)
    (settings : Option Settings) (es : EventSettings) (o : Oracles) (db : DB)
    (req : Request) (e : Event)
    (he : db.findEvent req.eventId = some e)
    (hup : req.file = true → o.uploadOk = true)
    (hst : settings = some { eventSettings := some es })
    (hcap : ((mergedUpdateData o req e).maxAttendees.truthy &&
      (mergedUpdateData o req e).maxAttendees.gtNum
        es.maxAttendeesPerEvent) = false)
    (hpersist : o.persistOk = true)
    (hch : detect e (mergedUpdateData o req e) = true)
    (hparts : db.approvedParticipations req.eventId ≠ [])
    (hni : o.notifInsertOk = false) :
    (updateEvent detect storageType settings o db req).status = 400 ∧
    (updateEvent detect storageType settings o db req).db = db ∧
    (updateEvent detect storageType settings o db req).notifsCreated = [] ∧
    Action.txCommit ∉ (updateEvent detect storageType settings o db req).trace := by
  subst hst
  have h := (updateEvent_post_persist detect storageType es o db req e he hup
    hcap hpersist).2.2.1 hch hparts hni
  rw [h]
  refine ⟨rfl, rfl, rfl, ?_⟩
  intro hmem
  unfold insertFailOutcome at hmem
  rcases List.mem_append.mp hmem with h1 | h1
  · rcases List.mem_append.mp h1 with h2 | h2
    · have := preTrace_no_commit storageType o req e Action.txCommit h2
      simp at this
    · rcases List.mem_singleton.mp h2 with h3
      cases h3
  · rcases List.mem_singleton.mp h1 with h3
    cases h3

/-- Oracles where only the notification batch insert fails. -/
def insertFailOracles : Oracles :=
  { oraclesOk with notifInsertOk := false }

/-- C4 witness: the title-only update against the fixture database with a
failing notification insert yields 400, an untouched database, no
notification, and no commit. -/
theorem c4_witness :
    (updateEvent detectEventChanges StorageType.s3 (some settingsA)
      insertFailOracles dbA titleReq).status = 400 ∧
    (updateEvent detectEventChanges StorageType.s3 (some settingsA)
      insertFailOracles dbA titleReq).db = dbA ∧
    (updateEvent detectEventChanges StorageType.s3 (some settingsA)
      insertFailOracles dbA titleReq).notifsCreated = [] ∧
    Action.txCommit ∉
      (updateEvent detectEventChanges StorageType.s3 (some settingsA)
        insertFailOracles dbA titleReq).trace :=
  c4_notification_insert_failure_rolls_back detectEventChanges StorageType.s3
    (some settingsA) { maxAttendeesPerEvent := 100 } insertFailOracles dbA
    titleReq evA rfl (fun h => by cases h) rfl (by decide) rfl (by decide)
    (by decide) rfl

/-! ## C5 -/

/-- C5: whenever the fan-out runs and commits (event found, upload and
persist succeed, settings present, capacity passes, change detected,
approved participations exist, insert succeeds), exactly one notification
is created per approved participation — addressed to that participation's
user, typed `eventUpdate`, with `relatedId` the participation, the
organizer as sender, a message naming the event, and a data message naming
the event and the organizer's name and email — and the transaction
commits. -/
theorem c5_fanout_one_notification_per_approved
    (detect : Event → Body → Bool) (storageType : StorageType)
    (settings : Option Settings) (es : EventSettings) (o : Oracles) (db : DB)
    (req : Request) (e : Event)
    (he : db.findEvent req.eventId = some e)
    (hup : req.file = true → o.uploadOk = true)
    (hst : settings = some { eventSettings := some es })
    (hcap : ((mergedUpdateData o req e).maxAttendees.truthy &&
      (mergedUpdateData o req e).maxAttendees.gtNum
        es.maxAttendeesPerEvent) = false)
    (hpersist : o.persistOk = true)
    (hch : detect e (mergedUpdateData o req e) = true)
    (hparts : db.approvedParticipations req.eventId ≠ [])
    (hni : o.notifInsertOk = true) :
    (updateEvent detect storageType settings o db req).notifsCreated =
      (db.approvedParticipations req.eventId).map
        (mkNotification (applyPatch e (mergedUpdateData o req e))
          e.organizer.id) ∧
    (updateEvent detect storageType settings o db req).notifsCreated.length =
      (db.approvedParticipations req.eventId).length ∧
    (updateEvent detect storageType settings o db req).status = 200 ∧
    Action.txCommit ∈ (updateEvent detect storageType settings o db req).trace ∧
    (∀ p ∈ db.approvedParticipations req.eventId,
      (mkNotification (applyPatch e (mergedUpdateData o req e))
        e.organizer.id p).userId = p.user ∧
      (mkNotification (applyPatch e (mergedUpdateData o req e))
        e.organizer.id p).type = "eventUpdate" ∧
      (mkNotification (applyPatch e (mergedUpdateData o req e))
        e.organizer.id p).relatedId = p.id ∧
      (mkNotification (applyPatch e (mergedUpdateData o req e))
        e.organizer.id p).notificationSender = e.organizer.id ∧
      (∃ pre post, (mkNotification (applyPatch e (mergedUpdateData o req e))
        e.organizer.id p).message =
        pre ++ (applyPatch e (mergedUpdateData o req e)).title ++ post) ∧
      (∃ pre mid1 mid2, (mkNotification (applyPatch e (mergedUpdateData o req e))
        e.organizer.id p).data.message =
        pre ++ (applyPatch e (mergedUpdateData o req e)).title ++ mid1 ++
          e.organizer.firstName ++ " " ++ e.organizer.lastName ++ mid2 ++
          e.organizer.email)) := by
  subst hst
  have h := (updateEvent_post_persist detect storageType es o db req e he hup
    hcap hpersist).2.2.2 hch hparts hni
  rw [h]
  refine ⟨rfl, ?_, rfl, ?_, ?_⟩
  · unfold fanoutOutcome fanoutNotifications
    exact List.length_map _ _
  · unfold fanoutOutcome
    exact List.mem_append.mpr (Or.inr (by simp))
  · intro p hp
    refine ⟨rfl, rfl, rfl, rfl, ⟨"Event \"", "\" has been updated", rfl⟩,
      ⟨"The event \"",
        "\" has been updated. Please kindly check the new details.\nWe look forward to your participation.\n\nRegards,\n\n",
        ",\n", rfl⟩⟩

/-- C5 witness: the title-only update on the fixture database (two
approved participations, ceiling 100, `maxAttendees` 50) creates exactly
two notifications and commits. -/
theorem c5_witness :
    (updateEvent detectEventChanges StorageType.s3 (some settingsA) oraclesOk
      dbA titleReq).notifsCreated.length = 2 ∧
    (updateEvent detectEventChanges StorageType.s3 (some settingsA) oraclesOk
      dbA titleReq).status = 200 ∧
    Action.txCommit ∈
      (updateEvent detectEventChanges StorageType.s3 (some settingsA) oraclesOk
        dbA titleReq).trace := by
  have h := c5_fanout_one_notification_per_approved detectEventChanges
    StorageType.s3 (some settingsA) { maxAttendeesPerEvent := 100 } oraclesOk
    dbA titleReq evA rfl (fun hx => by cases hx) rfl (by decide) rfl (by decide)
    (by decide) rfl
  refine ⟨?_, h.2.2.1, h.2.2.2.1⟩
  rw [h.2.1]
  decide

/-! ## C6 -/

/-- Both variants of the main listing filter keep only rows whose status
differs from `deleted`. -/
theorem getAllEvent_excludes_deleted (db : DB) (isPublic : Bool)
    (organizerId : Option Nat) :
    ∀ x ∈ getAllEvent db isPublic organizerId,
      x ∈ db.events ∧ x.status ≠ EventStatus.deleted := by
  intro x hx
  unfold getAllEvent at hx
  rcases List.mem_filter.mp hx with ⟨hmem, hcond⟩
  refine ⟨hmem, ?_⟩
  rcases Bool.and_eq_true_iff.mp hcond with ⟨hstat, _⟩
  cases isPublic with
  | false =>
    rw [if_neg (by simp)] at hstat
    intro hdel
    rw [hdel] at hstat
    simp at hstat
  | true =>
    rw [if_pos rfl] at hstat
    rcases Bool.and_eq_true_iff.mp hstat with ⟨_, hnot⟩
    intro hdel
    rw [hdel] at hnot
    simp at hnot

/-- C6: deleting an existing event is a soft status transition: the
response is 200, the row persists with status `deleted`, every
participation of the event is cascaded to status `deleted`, every event
row with that id carries status `deleted`, and the event appears in no
listing — neither the default/public filters nor the joined-events
branch. -/
theorem c6_soft_delete_cascade_excluded (db : DB) (eid : Nat) (e : Event)
    (he : db.findEvent eid = some e) :
    (deleteEvent db eid).status = 200 ∧
    (deleteEvent db eid).db.findEvent eid =
      some { e with status := EventStatus.deleted } ∧
    (∀ p ∈ (deleteEvent db eid).db.participations, p.event = eid →
      p.status = PartStatus.deleted) ∧
    (∀ x ∈ (deleteEvent db eid).db.events, x.id = eid →
      x.status = EventStatus.deleted) ∧
    (∀ (isPublic : Bool) (organizerId : Option Nat),
      ∀ x ∈ getAllEvent (deleteEvent db eid).db isPublic organizerId,
        x.id ≠ eid) ∧
    (∀ uid : Nat, ∀ x ∈ joinedEvents (deleteEvent db eid).db uid,
      x.id ≠ eid) := by
  have hdel : deleteEvent db eid =
      { status := 200,
        message := "Event and related participations soft deleted successfully",
        db := (db.updateEventRow eid
          { e with status := EventStatus.deleted }).cascadeParticipations eid } := by
    unfold deleteEvent
    rw [he]
  rw [hdel]
  have hparts : ∀ p ∈ ((db.updateEventRow eid
      { e with status := EventStatus.deleted }).cascadeParticipations
        eid).participations,
      p.event = eid → p.status = PartStatus.deleted := by
    intro p hp hev
    unfold DB.cascadeParticipations at hp
    rcases List.mem_map.mp hp with ⟨q, hq, hqp⟩
    by_cases hqe : (q.event == eid) = true
    · rw [if_pos hqe] at hqp
      rw [← hqp]
    · rw [if_neg hqe] at hqp
      subst hqp
      exact absurd (by rw [hev]; exact beq_self_eq_true eid) hqe
  have hevents : ∀ x ∈ ((db.updateEventRow eid
      { e with status := EventStatus.deleted }).cascadeParticipations
        eid).events,
      x.id = eid → x.status = EventStatus.deleted := by
    intro x hx hid
    unfold DB.cascadeParticipations DB.updateEventRow at hx
    rcases List.mem_map.mp hx with ⟨y, hy, hyx⟩
    by_cases hye : (y.id == eid) = true
    · rw [if_pos hye] at hyx
      rw [← hyx]
    · rw [if_neg hye] at hyx
      subst hyx
      exact absurd (by rw [hid]; exact beq_self_eq_true eid) hye
  refine ⟨rfl, ?_, hparts, hevents, ?_, ?_⟩
  · show ((db.updateEventRow eid
      { e with status := EventStatus.deleted }).cascadeParticipations
        eid).findEvent eid = some { e with status := EventStatus.deleted }
    unfold DB.findEvent DB.cascadeParticipations DB.updateEventRow
    exact find?_update_row db.events eid e
      { e with status := EventStatus.deleted } he rfl
  · intro isPublic organizerId x hx hid
    rcases getAllEvent_excludes_deleted _ isPublic organizerId x hx
      with ⟨hmem, hstat⟩
    exact hstat (hevents x hmem hid)
  · intro uid x hx hid
    unfold joinedEvents at hx
    rcases List.mem_filter.mp hx with ⟨hmem, hcont⟩
    have hxin : x.id ∈ (((db.updateEventRow eid
        { e with status := EventStatus.deleted }).cascadeParticipations
          eid).participations.filter (fun p =>
            p.user == uid && p.status == PartStatus.approved)).map
        (fun p => p.event) := by
      simpa using hcont
    rcases List.mem_map.mp hxin with ⟨p, hpmem, hpev⟩
    rcases List.mem_filter.mp hpmem with ⟨hpmem2, hpcond⟩
    rcases Bool.and_eq_true_iff.mp hpcond with ⟨_, hpstat⟩
    have hdel2 : p.status = PartStatus.deleted := by
      apply hparts p hpmem2
      rw [hpev, hid]
    rw [hdel2] at hpstat
    simp at hpstat

/-- C6 witness: deleting event 1 of the fixture database returns 200,
keeps the row with status `deleted`, cascades its participations, and the
event disappears from every listing. -/
theorem c6_witness :
    (deleteEvent dbA 1).status = 200 ∧
    (deleteEvent dbA 1).db.findEvent 1 =
      some { evA with status := EventStatus.deleted } ∧
    (∀ p ∈ (deleteEvent dbA 1).db.participations, p.event = 1 →
      p.status = PartStatus.deleted) ∧
    (∀ x ∈ (deleteEvent dbA 1).db.events, x.id = 1 →
      x.status = EventStatus.deleted) ∧
    (∀ (isPublic : Bool) (organizerId : Option Nat),
      ∀ x ∈ getAllEvent (deleteEvent dbA 1).db isPublic organizerId,
        x.id ≠ 1) ∧
    (∀ uid : Nat, ∀ x ∈ joinedEvents (deleteEvent dbA 1).db uid, x.id ≠ 1) :=
  c6_soft_delete_cascade_excluded dbA 1 evA rfl

/-! ## C9 -/

/-- With no file, the merged update data keeps the stored image key. -/
theorem mergedUpdateData_image_nofile {o : Oracles} {req : Request} {e : Event}
    (hf : req.file = false) :
    (mergedUpdateData o req e).image = e.image := by
  unfold mergedUpdateData
  rw [hf]
  rfl

/-- C9: for every update request with no file against an existing event,
the persisted image key equals the pre-update key (so a non-null image is
never cleared), and any client-supplied `image` body field is overridden —
the run's outcome is identical for every value of that field. -/
theorem c9_no_file_preserves_image (detect : Event → Body → Bool)
    (storageType : StorageType) (settings : Option Settings) (o : Oracles)
    (db : DB) (req : Request) (e : Event)
    (he : db.findEvent req.eventId = some e)
    (hf : req.file = false) :
    (∃ e', (updateEvent detect storageType settings o db req).db.findEvent
        req.eventId = some e' ∧ e'.image = e.image) ∧
    (e.image ≠ none →
      ∀ e', (updateEvent detect storageType settings o db req).db.findEvent
        req.eventId = some e' → e'.image ≠ none) ∧
    (∀ img' : Option String,
      updateEvent detect storageType settings o db
        { req with body := { req.body with image := img' } } =
      updateEvent detect storageType settings o db req) := by
  have himg : ∀ e'' : Event,
      (applyPatch e'' (mergedUpdateData o req e'')).image = e''.image := by
    intro e''
    show (mergedUpdateData o req e'').image = e''.image
    exact mergedUpdateData_image_nofile hf
  have hmain : ∃ e', (updateEvent detect storageType settings o db
      req).db.findEvent req.eventId = some e' ∧ e'.image = e.image := by
    unfold updateEvent
    rw [he]
    dsimp only
    by_cases hg : (req.file && !o.uploadOk) = true
    · rw [if_pos hg]
      exact ⟨e, he, rfl⟩
    · rw [if_neg hg]
      rcases settings with _ | ⟨_ | es⟩
      · exact ⟨e, he, rfl⟩
      · exact ⟨e, he, rfl⟩
      · dsimp only
        by_cases hcap : ((mergedUpdateData o req e).maxAttendees.truthy &&
            (mergedUpdateData o req e).maxAttendees.gtNum
              es.maxAttendeesPerEvent) = true
        · rw [if_pos hcap]
          exact ⟨e, he, rfl⟩
        · rw [if_neg hcap]
          by_cases hp : (!o.persistOk) = true
          · rw [if_pos hp]
            exact ⟨e, he, rfl⟩
          · rw [if_neg hp]
            have hfound : (db.updateEventRow req.eventId
                (applyPatch e (mergedUpdateData o req e))).findEvent
                  req.eventId =
                some (applyPatch e (mergedUpdateData o req e)) := by
              unfold DB.findEvent DB.updateEventRow
              exact find?_update_row db.events req.eventId e
                (applyPatch e (mergedUpdateData o req e)) he rfl
            by_cases hch : detect e (mergedUpdateData o req e) = true
            · rw [if_pos hch]
              by_cases hl : (db.approvedParticipations req.eventId).length > 0
              · rw [if_pos hl]
                by_cases hni : (!o.notifInsertOk) = true
                · rw [if_pos hni]
                  exact ⟨e, he, rfl⟩
                · rw [if_neg hni]
                  exact ⟨applyPatch e (mergedUpdateData o req e), hfound,
                    himg e⟩
              · rw [if_neg hl]
                exact ⟨applyPatch e (mergedUpdateData o req e), hfound, himg e⟩
            · rw [if_neg hch]
              exact ⟨applyPatch e (mergedUpdateData o req e), hfound, himg e⟩
  refine ⟨hmain, ?_, ?_⟩
  · intro hnn e' he'
    rcases hmain with ⟨e'', he'', himg2⟩
    rw [he'] at he''
    injection he'' with hee
    rw [hee, himg2]
    exact hnn
  · intro img'
    cases req with
    | mk eid b f =>
      cases b with
      | mk t l sd ed ma pub img => rfl

/-- C9 witness: updating event 1 with a title-only body and no file keeps
the stored image key `uploads/oldkey`, and the outcome ignores the body's
image field. -/
theorem c9_witness :
    (∃ e', (updateEvent detectEventChanges StorageType.s3 (some settingsA)
        oraclesOk dbA titleReq).db.findEvent titleReq.eventId = some e' ∧
      e'.image = evA.image) ∧
    (evA.image ≠ none →
      ∀ e', (updateEvent detectEventChanges StorageType.s3 (some settingsA)
        oraclesOk dbA titleReq).db.findEvent titleReq.eventId = some e' →
        e'.image ≠ none) ∧
    (∀ img' : Option String,
      updateEvent detectEventChanges StorageType.s3 (some settingsA) oraclesOk
        dbA { titleReq with body := { titleReq.body with image := img' } } =
      updateEvent detectEventChanges StorageType.s3 (some settingsA) oraclesOk
        dbA titleReq) :=
  c9_no_file_preserves_image detectEventChanges StorageType.s3 (some settingsA)
    oraclesOk dbA titleReq evA rfl rfl

/-! ## C10 -/

/-- C10: a falsy `maxAttendees` (absent, `0`, or the empty string) skips
the capacity comparison entirely — the update outcome is identical for
every configured ceiling, so no capacity error can arise — and on creation
the stored `maxAttendees` silently becomes the ceiling value. -/
theorem c10_falsy_max_attendees_skips_capacity (req : Request)
    (hfalsy : req.body.maxAttendees.truthy = false) :
    (∀ (detect : Event → Body → Bool) (storageType : StorageType)
        (o : Oracles) (db : DB) (m m' : Int),
      updateEvent detect storageType
        (some { eventSettings := some { maxAttendeesPerEvent := m } }) o db
        req =
      updateEvent detect storageType
        (some { eventSettings := some { maxAttendeesPerEvent := m' } }) o db
        req) ∧
    (∀ m : Int,
      createEvent (some { eventSettings := some { maxAttendeesPerEvent := m } })
        req.body =
      { status := 201, message := "", storedMaxAttendees := some m }) := by
  constructor
  · intro detect storageType o db m m'
    unfold updateEvent
    cases hfind : db.findEvent req.eventId with
    | none => rfl
    | some e =>
      dsimp only
      by_cases hg : (req.file && !o.uploadOk) = true
      · rw [if_pos hg, if_pos hg]
      · rw [if_neg hg, if_neg hg]
        have hguard : ∀ c : Int, ((mergedUpdateData o req e).maxAttendees.truthy &&
            (mergedUpdateData o req e).maxAttendees.gtNum c) = false := by
          intro c
          rw [mergedUpdateData_maxAttendees, hfalsy]
          rfl
        have hc1 : ¬ (((mergedUpdateData o req e).maxAttendees.truthy &&
            (mergedUpdateData o req e).maxAttendees.gtNum m) = true) := by
          rw [hguard m]; exact Bool.false_ne_true
        have hc2 : ¬ (((mergedUpdateData o req e).maxAttendees.truthy &&
            (mergedUpdateData o req e).maxAttendees.gtNum m') = true) := by
          rw [hguard m']; exact Bool.false_ne_true
        rw [if_neg hc1, if_neg hc2]
  · intro m
    unfold createEvent
    dsimp only
    rw [if_neg (by simp [hfalsy])]
    rw [if_neg (by rw [hfalsy]; exact Bool.false_ne_true)]

/-- C10 witness: with `maxAttendees = 0` the update outcome is the same
under ceilings 100 and 7, and creation stores ceiling 100. -/
theorem c10_witness :
    (updateEvent detectEventChanges StorageType.s3
      (some { eventSettings := some { maxAttendeesPerEvent := 100 } })
      oraclesOk dbA
      { eventId := 1, body := { emptyBody with maxAttendees := JSField.num 0 },
        file := false } =
    updateEvent detectEventChanges StorageType.s3
      (some { eventSettings := some { maxAttendeesPerEvent := 7 } })
      oraclesOk dbA
      { eventId := 1, body := { emptyBody with maxAttendees := JSField.num 0 },
        file := false }) ∧
    createEvent (some { eventSettings := some { maxAttendeesPerEvent := 100 } })
      { emptyBody with maxAttendees := JSField.num 0 } =
      { status := 201, message := "", storedMaxAttendees := some 100 } :=
  ⟨(c10_falsy_max_attendees_skips_capacity
      { eventId := 1, body := { emptyBody with maxAttendees := JSField.num 0 },
        file := false } (by decide)).1 detectEventChanges StorageType.s3
      oraclesOk dbA 100 7,
   (c10_falsy_max_attendees_skips_capacity
      { eventId := 1, body := { emptyBody with maxAttendees := JSField.num 0 },
        file := false } (by decide)).2 100⟩

end EventApi
